import Mathlib

/-!
Verification model of a Go HTTP CRUD service over a `users` table
(`src/main.go`). Pure handler logic (query-string parsing, validation
dispatch, error-to-status translation) is translated directly from the
source. The persistence layer (go-pg over Postgres) and the JSON decoder
are external to the repository; their behaviour is modelled from the
specification where noted.
-/

namespace GoLaba

/-- The `User` entity: `ID`, `Name`, `Email`, `Age` (src/main.go lines 16-21). -/
structure User where
  id : Int
  name : String
  email : String
  age : Int
deriving DecidableEq, Repr

/-- The zero value `var user User` a Go declaration produces. -/
def User.zero : User := ⟨0, "", "", 0⟩

/-- The `AuthRequest` pair (src/main.go lines 24-27). -/
structure AuthRequest where
  username : String
  password : String
deriving DecidableEq, Repr

/-- Value of a digit string, most significant first. -/
def digitsVal (cs : List Char) : Int :=
  cs.foldl (fun acc c => acc * 10 + (Int.ofNat (c.toNat - Char.toNat '0'))) 0

/-- Model of Go `strconv.Atoi`: optional sign followed by at least one
decimal digit; `none` on the empty string or any non-digit character
(`Atoi` then returns an error together with the zero value 0). -/
def atoi (s : String) : Option Int :=
  match s.toList with
  | [] => none
  | c :: rest =>
    if c = '+' then
      if rest ≠ [] ∧ rest.all Char.isDigit then some (digitsVal rest) else none
    else if c = '-' then
      if rest ≠ [] ∧ rest.all Char.isDigit then some (-(digitsVal rest)) else none
    else
      if (c :: rest).all Char.isDigit then some (digitsVal (c :: rest)) else none

/-- Split a character list at every occurrence of `c` (the pieces do not
contain `c`; n occurrences of `c` yield n+1 pieces). -/
def splitChar (c : Char) : List Char → List (List Char)
  | [] => [[]]
  | x :: xs =>
    match splitChar c xs with
    | [] => [[]]
    | g :: gs => if x = c then [] :: g :: gs else (x :: g) :: gs

/-- Modelled from the spec: the `email` tag of the validator library (not in
src) requires "valid email syntax". Simplified to: exactly one `@`, with a
non-empty local part and a non-empty domain containing a dot that splits it
into non-empty labels. -/
def emailValid (s : String) : Bool :=
  match splitChar '@' s.toList with
  | [loc, dom] =>
    !loc.isEmpty && !dom.isEmpty &&
      (let parts := splitChar '.' dom
       decide (parts.length ≥ 2) && parts.all (fun p => !p.isEmpty))
  | _ => false

/-- Violations of `Name`'s tags `required,min=2,max=100` (first failing tag
of the field, go-playground semantics). -/
def nameErrs (u : User) : List (String × String) :=
  if u.name = "" then [("Name", "required")]
  else if u.name.length < 2 then [("Name", "min")]
  else if u.name.length > 100 then [("Name", "max")]
  else []

/-- Violations of `Email`'s tags `required,email`. -/
def emailErrs (u : User) : List (String × String) :=
  if u.email = "" then [("Email", "required")]
  else if !emailValid u.email then [("Email", "email")]
  else []

/-- Violations of `Age`'s tags `gte=0,lte=130`. -/
def ageErrs (u : User) : List (String × String) :=
  if u.age < 0 then [("Age", "gte")]
  else if u.age > 130 then [("Age", "lte")]
  else []

/-- Model of `validate.Struct` on `User` with the source's tags: each field
is checked independently and the violations of all fields are collected
(go-playground validator semantics). Result is the list of (field, failed
tag) pairs. -/
def validateStruct (u : User) : List (String × String) :=
  nameErrs u ++ emailErrs u ++ ageErrs u

/-- Rendering of a validation error (`err.Error()`), one line per failing
field/tag pair. -/
def validationMsg (vs : List (String × String)) : String :=
  String.intercalate "\n"
    (vs.map (fun v => "Key: " ++ v.1 ++ " failed on the " ++ v.2 ++ " tag"))

/-- The spec's constraint on `name`: present, length in [2,100]. -/
def nameOk (u : User) : Prop := u.name ≠ "" ∧ 2 ≤ u.name.length ∧ u.name.length ≤ 100

/-- The spec's constraint on `email`: present and syntactically valid. -/
def emailOk (u : User) : Prop := u.email ≠ "" ∧ emailValid u.email = true

/-- The spec's constraint on `age`: in [0,130]. -/
def ageOk (u : User) : Prop := 0 ≤ u.age ∧ u.age ≤ 130

instance (u : User) : Decidable (nameOk u) := by unfold nameOk; infer_instance
instance (u : User) : Decidable (emailOk u) := by unfold emailOk; infer_instance
instance (u : User) : Decidable (ageOk u) := by unfold ageOk; infer_instance

/-- The database: the `users` table rows plus the serial `id` sequence.
Modelled from the spec: the store assigns ids from a generated sequence. -/
structure Store where
  rows : List User
  nextId : Int
deriving DecidableEq, Repr

/-- Store well-formedness: every persisted id is below the next generated id
(true of a serial column). -/
def Store.WF (s : Store) : Prop := ∀ r ∈ s.rows, r.id < s.nextId

/-- A store call either fails with a connectivity/query error (`fail = some
msg` injects one) or runs on the data. Modelled from the spec: `StoreError`
on connectivity failure. -/
def dbCall {α : Type} (fail : Option String) (x : α) : Except String α :=
  match fail with
  | some m => Except.error m
  | none => Except.ok x

/-- Model of `db.Model(user).WherePK().Select()`: the row with the given
primary key, `pg: no rows in result set` when absent (spec: `get` fails
with NotFound if no such row exists), or the injected failure. -/
def selectPK (s : Store) (fail : Option String) (id : Int) : Except String User :=
  match fail with
  | some m => Except.error m
  | none =>
    match s.rows.find? (fun r => r.id == id) with
    | some u => Except.ok u
    | none => Except.error "pg: no rows in result set"

/-- Model of `db.Model(&user).Insert()`. Modelled from the spec: `insert`
assigns a new id, persists the row and returns the stored entity including
the generated id. -/
def insertRow (s : Store) (fail : Option String) (u : User) :
    Except String (User × Store) :=
  match fail with
  | some m => Except.error m
  | none =>
    let u' : User := { u with id := s.nextId }
    Except.ok (u', ⟨s.rows ++ [u'], s.nextId + 1⟩)

/-- Model of `db.Model(&user).Where("id = ?", id).Update()`: every row whose
id matches is overwritten with the supplied values. Modelled from the spec:
when no row matches, the operation is a storage-layer no-op and is not
reported as NotFound (the source does not check the affected-row count). -/
def updateWhere (s : Store) (fail : Option String) (id : Int) (u : User) :
    Except String Store :=
  match fail with
  | some m => Except.error m
  | none => Except.ok ⟨s.rows.map (fun r => if r.id == id then u else r), s.nextId⟩

/-- Model of `db.Model(user).WherePK().Delete()`. Modelled from the spec:
`delete` removes the row with that primary key and fails with NotFound
(`pg: no rows in result set`) if no row matched. -/
def deleteRowPK (s : Store) (fail : Option String) (id : Int) :
    Except String Store :=
  match fail with
  | some m => Except.error m
  | none =>
    if s.rows.any (fun r => r.id == id) then
      Except.ok ⟨s.rows.filter (fun r => !(r.id == id)), s.nextId⟩
    else Except.error "pg: no rows in result set"

/-- An HTTP response of this service, by handler outcome. -/
inductive Response where
  | okUser (u : User)
  | okUsers (us : List User)
  | okMsg (msg : String)
  | okToken (token : String)
  | badRequest (msg : String)
  | unauthorized
  | notFound (msg : String)
  | serverError (msg : String)
deriving DecidableEq, Repr

/-- The HTTP status code each response carries. -/
def Response.status : Response → Nat
  | .okUser _ => 200
  | .okUsers _ => 200
  | .okMsg _ => 200
  | .okToken _ => 200
  | .badRequest _ => 400
  | .unauthorized => 401
  | .notFound _ => 404
  | .serverError _ => 500

/-- `page` as computed by `getUsers` (src lines 73-76): `strconv.Atoi`
result, 1 when parsing fails. -/
def parsePage (s : String) : Int := (atoi s).getD 1

/-- `limit` as computed by `getUsers` (src lines 77-80): `strconv.Atoi`
result, 10 when parsing fails. -/
def parseLimit (s : String) : Int := (atoi s).getD 10

/-- The filter part of the list query (src lines 82-91): equality on `name`
when the parameter is non-empty; equality on `age` when the `age` parameter
is non-empty, where `age, _ := strconv.Atoi(ageStr)` leaves `age = 0` on a
parse error. -/
def applyFilters (rows : List User) (name ageStr : String) : List User :=
  let rows := if name ≠ "" then rows.filter (fun r => r.name == name) else rows
  if ageStr ≠ "" then
    rows.filter (fun r => r.age == (atoi ageStr).getD 0)
  else rows

/-- Handler `getUsers` (src lines 67-101). The offset/limit application
models `Offset((page-1)*limit).Limit(limit)` for the non-negative values a
well-formed request produces (negative values are clamped here). -/
def getUsers (s : Store) (fail : Option String)
    (pageStr limitStr name ageStr : String) : Response :=
  let page := parsePage pageStr
  let limit := parseLimit limitStr
  match dbCall fail
      (((applyFilters s.rows name ageStr).drop ((page - 1) * limit).toNat).take
        limit.toNat) with
  | Except.error m => Response.serverError m
  | Except.ok us => Response.okUsers us

/-- Handler `getUser` (src lines 104-115): parse the path id (`Atoi` error
ignored, leaving 0), select by primary key, and map ANY error to
404 "User not found". -/
def getUser (s : Store) (fail : Option String) (idStr : String) : Response :=
  let id := (atoi idStr).getD 0
  match selectPK s fail id with
  | Except.error _ => Response.notFound "User not found"
  | Except.ok u => Response.okUser u

/-- Handler `createUser` (src lines 118-135): the decode error is discarded
(`none` models a malformed body, leaving the zero-valued `User`), the
payload is validated (400 with the validation message on failure), then
inserted (500 on store error). Returns the response and the store after. -/
def createUser (s : Store) (fail : Option String) (body : Option User) :
    Response × Store :=
  let user := body.getD User.zero
  if validateStruct user ≠ [] then
    (Response.badRequest (validationMsg (validateStruct user)), s)
  else
    match insertRow s fail user with
    | Except.error m => (Response.serverError m, s)
    | Except.ok (u', s') => (Response.okUser u', s')

/-- Handler `updateUser` (src lines 138-158): parse the path id (0 on
error), decode the body (zero-valued `User` on error), validate (400 on
failure), force `user.ID = id`, update rows matching the id (500 on store
error), and echo the written entity. -/
def updateUser (s : Store) (fail : Option String) (idStr : String)
    (body : Option User) : Response × Store :=
  let id := (atoi idStr).getD 0
  let user := body.getD User.zero
  if validateStruct user ≠ [] then
    (Response.badRequest (validationMsg (validateStruct user)), s)
  else
    let user : User := { user with id := id }
    match updateWhere s fail id user with
    | Except.error m => (Response.serverError m, s)
    | Except.ok s' => (Response.okUser user, s')

/-- Handler `deleteUser` (src lines 161-172): parse the path id (0 on
error), delete by primary key, map ANY error to 404 "User not found", and
answer 200 with message "User deleted" on success. -/
def deleteUser (s : Store) (fail : Option String) (idStr : String) :
    Response × Store :=
  let id := (atoi idStr).getD 0
  match deleteRowPK s fail id with
  | Except.error _ => (Response.notFound "User not found", s)
  | Except.ok s' => (Response.okMsg "User deleted", s')

/-- Handler `loginHandler` (src lines 175-193): 400 "Invalid request" when
the body does not decode; 200 with the fixed token for the literal pair
("user", "password"); 401 otherwise. -/
def loginHandler (body : Option AuthRequest) : Response :=
  match body with
  | none => Response.badRequest "Invalid request"
  | some a =>
    if a.username == "user" && a.password == "password" then
      Response.okToken "your_token_here"
    else Response.unauthorized

/-! ## Helper lemmas -/

/-- The validator never looks at the `id` field. -/
theorem validateStruct_id_irrelevant (u : User) (n : Int) :
    validateStruct { u with id := n } = validateStruct u := rfl

theorem nameErrs_eq_nil (u : User) : nameErrs u = [] ↔ nameOk u := by
  unfold nameErrs nameOk
  split_ifs with h1 h2 h3 <;> constructor <;> intro h <;> simp_all <;> omega

theorem emailErrs_eq_nil (u : User) : emailErrs u = [] ↔ emailOk u := by
  unfold emailErrs emailOk
  split_ifs with h1 h2
  · simp [h1]
  · constructor
    · intro h
      simp at h
    · rintro ⟨-, hv⟩
      simp [hv] at h2
  · constructor
    · intro _
      exact ⟨h1, by simpa using h2⟩
    · intro _
      rfl

theorem ageErrs_eq_nil (u : User) : ageErrs u = [] ↔ ageOk u := by
  unfold ageErrs ageOk
  split_ifs with h1 h2 <;> constructor <;> intro h
  · simp at h
  · omega
  · simp at h
  · omega
  · omega
  · rfl

theorem validateStruct_eq_nil (u : User) :
    validateStruct u = [] ↔ nameOk u ∧ emailOk u ∧ ageOk u := by
  unfold validateStruct
  rw [List.append_eq_nil, List.append_eq_nil]
  rw [nameErrs_eq_nil, emailErrs_eq_nil, ageErrs_eq_nil]
  tauto

theorem nameErrs_mem_of_not_ok (u : User) (h : ¬ nameOk u) :
    ∃ t, ("Name", t) ∈ nameErrs u := by
  unfold nameOk at h
  unfold nameErrs
  split_ifs with h1 h2 h3
  · exact ⟨"required", List.mem_singleton.mpr rfl⟩
  · exact ⟨"min", List.mem_singleton.mpr rfl⟩
  · exact ⟨"max", List.mem_singleton.mpr rfl⟩
  · exact absurd ⟨h1, by omega, by omega⟩ h

theorem emailErrs_mem_of_not_ok (u : User) (h : ¬ emailOk u) :
    ∃ t, ("Email", t) ∈ emailErrs u := by
  unfold emailOk at h
  unfold emailErrs
  split_ifs with h1 h2
  · exact ⟨"required", List.mem_singleton.mpr rfl⟩
  · exact ⟨"email", List.mem_singleton.mpr rfl⟩
  · exact absurd ⟨h1, by simpa using h2⟩ h

theorem ageErrs_mem_of_not_ok (u : User) (h : ¬ ageOk u) :
    ∃ t, ("Age", t) ∈ ageErrs u := by
  unfold ageOk at h
  unfold ageErrs
  split_ifs with h1 h2
  · exact ⟨"gte", List.mem_singleton.mpr rfl⟩
  · exact ⟨"lte", List.mem_singleton.mpr rfl⟩
  · exact absurd ⟨by omega, by omega⟩ h

/-- `find?` skips a block where nothing matches. -/
theorem find?_append_of_none {α : Type} {p : α → Bool} {l₁ l₂ : List α}
    (h : l₁.find? p = none) : (l₁ ++ l₂).find? p = l₂.find? p := by
  induction l₁ with
  | nil => rfl
  | cons a t ih =>
    rw [List.cons_append]
    cases hpa : p a with
    | true => simp [List.find?_cons, hpa] at h
    | false =>
      simp only [List.find?_cons, hpa] at h ⊢
      exact ih h

/-- An update whose `WHERE id = ?` clause matches no row leaves the rows
unchanged. -/
theorem map_update_noop (l : List User) (id : Int) (u : User)
    (h : ∀ r ∈ l, r.id ≠ id) :
    l.map (fun r => if r.id == id then u else r) = l := by
  induction l with
  | nil => rfl
  | cons a t ih =>
    have ha : (a.id == id) = false := by
      simpa using h a (List.mem_cons_self a t)
    simp only [List.map_cons, ha, Bool.false_eq_true, if_false, List.cons.injEq,
      true_and]
    exact ih fun r hr => h r (List.mem_cons_of_mem a hr)

/-! ## Claim theorems -/

/-- C4: the Validator checks name, email and age independently, reports a
violation for every failing field (not only the first), and its result is
empty exactly when name is present with length in [2,100], email is present
and syntactically valid, and age is in [0,130]. -/
theorem validator_reports_all_violations (u : User) :
    (validateStruct u = [] ↔ nameOk u ∧ emailOk u ∧ ageOk u) ∧
    (¬ nameOk u → ∃ t, ("Name", t) ∈ validateStruct u) ∧
    (¬ emailOk u → ∃ t, ("Email", t) ∈ validateStruct u) ∧
    (¬ ageOk u → ∃ t, ("Age", t) ∈ validateStruct u) := by
  refine ⟨validateStruct_eq_nil u, ?_, ?_, ?_⟩
  · intro h
    obtain ⟨t, ht⟩ := nameErrs_mem_of_not_ok u h
    refine ⟨t, ?_⟩
    unfold validateStruct
    exact List.mem_append_left _ (List.mem_append_left _ ht)
  · intro h
    obtain ⟨t, ht⟩ := emailErrs_mem_of_not_ok u h
    refine ⟨t, ?_⟩
    unfold validateStruct
    exact List.mem_append_left _ (List.mem_append_right _ ht)
  · intro h
    obtain ⟨t, ht⟩ := ageErrs_mem_of_not_ok u h
    refine ⟨t, ?_⟩
    unfold validateStruct
    exact List.mem_append_right _ ht

/-- Witness for C4 at the zero-valued `User` (all three fields violated). -/
theorem validator_reports_all_violations_witness :
    (∃ t, ("Name", t) ∈ validateStruct User.zero) ∧
      (∃ t, ("Email", t) ∈ validateStruct User.zero) :=
  ⟨(validator_reports_all_violations User.zero).2.1 (by decide),
    (validator_reports_all_violations User.zero).2.2.1 (by decide)⟩

/-- C1: every row written to the store by the Create or Update handler
satisfies all Validator constraints at the time of write: after either
handler runs, every row of the store either was already present or passes
`validateStruct` (both handlers reach the store write only after validation
succeeds, and the write changes no field the Validator checks except by
copying the validated payload). -/
theorem persisted_rows_validated (s : Store) (fail : Option String)
    (body : Option User) (idStr : String) :
    (∀ r ∈ (createUser s fail body).2.rows,
      r ∈ s.rows ∨ validateStruct r = []) ∧
    (∀ r ∈ (updateUser s fail idStr body).2.rows,
      r ∈ s.rows ∨ validateStruct r = []) := by
  constructor
  · intro r hr
    by_cases hv : validateStruct (body.getD User.zero) = []
    · cases fail with
      | some m =>
        simp [createUser, insertRow, hv] at hr
        exact Or.inl hr
      | none =>
        simp [createUser, insertRow, hv] at hr
        rcases hr with hr | hr
        · exact Or.inl hr
        · refine Or.inr ?_
          rw [hr, validateStruct_id_irrelevant]
          exact hv
    · simp [createUser, hv] at hr
      exact Or.inl hr
  · intro r hr
    by_cases hv : validateStruct (body.getD User.zero) = []
    · cases fail with
      | some m =>
        simp [updateUser, updateWhere, hv] at hr
        exact Or.inl hr
      | none =>
        simp [updateUser, updateWhere, hv] at hr
        obtain ⟨a, ha, hra⟩ := hr
        by_cases hid : a.id = (atoi idStr).getD 0
        · rw [if_pos hid] at hra
          refine Or.inr ?_
          rw [← hra]
          exact (validateStruct_id_irrelevant (body.getD User.zero)
            ((atoi idStr).getD 0)).trans hv
        · rw [if_neg hid] at hra
          rw [← hra]
          exact Or.inl ha
    · simp [updateUser, hv] at hr
      exact Or.inl hr

/-- Witness for C1: a concrete Create on an empty store; the inserted row
passes the Validator. -/
theorem persisted_rows_validated_witness :
    (⟨1, "John Doe", "johndoe@example.com", 30⟩ : User) ∈
        (⟨[], 1⟩ : Store).rows ∨
      validateStruct ⟨1, "John Doe", "johndoe@example.com", 30⟩ = [] :=
  (persisted_rows_validated ⟨[], 1⟩ none
      (some ⟨0, "John Doe", "johndoe@example.com", 30⟩) "1").1
    ⟨1, "John Doe", "johndoe@example.com", 30⟩ (by decide)

/-- C9: Login answers 400 "Invalid request" on a malformed body, 200 with
the fixed non-empty token for the literal pair ("user", "password"), and
401 for every other decodable pair. -/
theorem login_credentials (a : AuthRequest) :
    loginHandler none = Response.badRequest "Invalid request" ∧
    (loginHandler none).status = 400 ∧
    loginHandler (some ⟨"user", "password"⟩) =
      Response.okToken "your_token_here" ∧
    (loginHandler (some ⟨"user", "password"⟩)).status = 200 ∧
    "your_token_here" ≠ "" ∧
    (a.username ≠ "user" ∨ a.password ≠ "password" →
      loginHandler (some a) = Response.unauthorized ∧
        (loginHandler (some a)).status = 401) := by
  refine ⟨rfl, rfl, by simp [loginHandler], by simp [loginHandler,
    Response.status], by decide, ?_⟩
  intro h
  have hb : (a.username == "user" && a.password == "password") = false := by
    rcases h with h | h <;> simp [h]
  constructor
  · simp [loginHandler, hb]
  · simp [loginHandler, hb, Response.status]

/-- Witness for C9 at the rejected pair ("admin", "password"). -/
theorem login_credentials_witness :
    loginHandler (some ⟨"admin", "password"⟩) = Response.unauthorized ∧
      (loginHandler (some ⟨"admin", "password"⟩)).status = 401 :=
  (login_credentials ⟨"admin", "password"⟩).2.2.2.2.2 (Or.inl (by decide))

/-- C7: a Create whose body fails to decode proceeds with the zero-valued
`User` (no parse error is surfaced), answers 400 with the validation
message, and persists nothing; more generally any validation failure
leaves the store unchanged. -/
theorem create_malformed_body (s : Store) (fail : Option String) :
    createUser s fail none = createUser s fail (some User.zero) ∧
    (createUser s fail none).1 =
      Response.badRequest (validationMsg (validateStruct User.zero)) ∧
    ((createUser s fail none).1).status = 400 ∧
    (createUser s fail none).2 = s ∧
    (∀ body : Option User, validateStruct (body.getD User.zero) ≠ [] →
      createUser s fail body =
        (Response.badRequest (validationMsg (validateStruct (body.getD
          User.zero))), s)) := by
    refine ⟨rfl, ?_, ?_, ?_, ?_⟩
    · simp [createUser, show validateStruct User.zero ≠ [] from by decide]
    · simp [createUser, show validateStruct User.zero ≠ [] from by decide,
        Response.status]
    · simp [createUser, show validateStruct User.zero ≠ [] from by decide]
    · intro body hv
      simp [createUser, hv]

/-- Witness for C7: on a concrete store, the invalid payload from the
spec's scenario (name "J", email "not-an-email", age 200) is rejected and
the store is unchanged. -/
theorem create_malformed_body_witness :
    createUser ⟨[⟨1, "Ann B", "ann@b.co", 20⟩], 2⟩ none
        (some ⟨0, "J", "not-an-email", 200⟩) =
      (Response.badRequest (validationMsg (validateStruct
        ⟨0, "J", "not-an-email", 200⟩)), ⟨[⟨1, "Ann B", "ann@b.co", 20⟩], 2⟩) :=
  (create_malformed_body ⟨[⟨1, "Ann B", "ann@b.co", 20⟩], 2⟩ none).2.2.2.2
    (some ⟨0, "J", "not-an-email", 200⟩) (by decide)

/-- C2: on a well-formed store, Create with a payload that passes the
Validator, followed by Get on the returned id, yields a User equal in all
fields (name, email, age and the returned id) to the created entity. -/
theorem create_then_get_roundtrip (s : Store) (user : User) (idStr : String)
    (hwf : s.WF) (hv : validateStruct user = [])
    (hid : atoi idStr = some s.nextId) :
    ∃ u' : User,
      createUser s none (some user) =
        (Response.okUser u', ⟨s.rows ++ [u'], s.nextId + 1⟩) ∧
      getUser (createUser s none (some user)).2 none idStr =
        Response.okUser u' ∧
      u'.name = user.name ∧ u'.email = user.email ∧ u'.age = user.age ∧
      u'.id = s.nextId := by
  refine ⟨{ user with id := s.nextId }, ?_, ?_, rfl, rfl, rfl, rfl⟩
  · simp [createUser, insertRow, hv]
  · have hc : (createUser s none (some user)).2 =
        ⟨s.rows ++ [{ user with id := s.nextId }], s.nextId + 1⟩ := by
      simp [createUser, insertRow, hv]
    rw [hc]
    have hnone : s.rows.find? (fun r => r.id == s.nextId) = none := by
      rw [List.find?_eq_none]
      intro x hx
      have := hwf x hx
      simp
      omega
    simp only [getUser, selectPK, hid, Option.getD_some]
    rw [find?_append_of_none hnone]
    simp [List.find?]

/-- Witness for C2: Create then Get on the empty store. -/
theorem create_then_get_roundtrip_witness :
    ∃ u' : User,
      createUser ⟨[], 1⟩ none (some ⟨0, "John Doe", "johndoe@example.com",
          30⟩) = (Response.okUser u', ⟨[] ++ [u'], 1 + 1⟩) ∧
      getUser (createUser ⟨[], 1⟩ none (some ⟨0, "John Doe",
          "johndoe@example.com", 30⟩)).2 none "1" = Response.okUser u' ∧
      u'.name = "John Doe" ∧ u'.email = "johndoe@example.com" ∧
      u'.age = 30 ∧ u'.id = 1 :=
  create_then_get_roundtrip ⟨[], 1⟩ ⟨0, "John Doe", "johndoe@example.com",
    30⟩ "1" (fun r hr => by simp at hr) (by decide) (by decide)

/-- C3: Get and Delete answer 404 "User not found" for an id with no
matching row (Delete leaving the store unchanged); Delete answers
200 "User deleted" only when a row matched, and that row is removed. -/
theorem absent_id_notfound (s : Store) (idStr : String) :
    ((∀ r ∈ s.rows, r.id ≠ (atoi idStr).getD 0) →
      getUser s none idStr = Response.notFound "User not found" ∧
      deleteUser s none idStr = (Response.notFound "User not found", s)) ∧
    (∀ fail, (deleteUser s fail idStr).1 = Response.okMsg "User deleted" →
      (∃ r ∈ s.rows, r.id = (atoi idStr).getD 0) ∧
      (deleteUser s fail idStr).2.rows =
        s.rows.filter (fun r => !(r.id == (atoi idStr).getD 0))) := by
  constructor
  · intro h
    have hnone : s.rows.find? (fun r => r.id == (atoi idStr).getD 0)
        = none := by
      rw [List.find?_eq_none]
      intro x hx
      simpa using h x hx
    have hany : s.rows.any (fun r => r.id == (atoi idStr).getD 0)
        = false := by
      rw [List.any_eq_false]
      intro x hx
      simpa using h x hx
    constructor
    · simp [getUser, selectPK, hnone]
    · simp [deleteUser, deleteRowPK, hany]
  · intro fail hok
    cases fail with
    | some m => simp [deleteUser, deleteRowPK] at hok
    | none =>
      cases hany : s.rows.any (fun r => r.id == (atoi idStr).getD 0) with
      | false => simp [deleteUser, deleteRowPK, hany] at hok
      | true =>
        constructor
        · obtain ⟨r, hr, hrid⟩ := List.any_eq_true.mp hany
          exact ⟨r, hr, by simpa using hrid⟩
        · simp [deleteUser, deleteRowPK, hany]

/-- Witness for C3 on a one-row store and the absent id 5. -/
theorem absent_id_notfound_witness :
    getUser ⟨[⟨1, "Ann B", "ann@b.co", 20⟩], 2⟩ none "5" =
        Response.notFound "User not found" ∧
      deleteUser ⟨[⟨1, "Ann B", "ann@b.co", 20⟩], 2⟩ none "5" =
        (Response.notFound "User not found",
          ⟨[⟨1, "Ann B", "ann@b.co", 20⟩], 2⟩) :=
  (absent_id_notfound ⟨[⟨1, "Ann B", "ann@b.co", 20⟩], 2⟩ "5").1 (by decide)

/-- C8: Update forces the decoded body's id to the path id before the
write, overwrites every field but the id of the row with that id, and when
no row matches it is a storage-layer no-op that still reports success. -/
theorem update_forces_path_id (s : Store) (idStr : String) (user : User)
    (hv : validateStruct user = []) :
    (updateUser s none idStr (some user)).1 =
      Response.okUser { user with id := (atoi idStr).getD 0 } ∧
    (updateUser s none idStr (some user)).2.rows =
      s.rows.map (fun r => if r.id == (atoi idStr).getD 0
        then { user with id := (atoi idStr).getD 0 } else r) ∧
    ((∀ r ∈ s.rows, r.id ≠ (atoi idStr).getD 0) →
      updateUser s none idStr (some user) =
        (Response.okUser { user with id := (atoi idStr).getD 0 }, s)) := by
  refine ⟨?_, ?_, ?_⟩
  · simp [updateUser, updateWhere, hv]
  · simp [updateUser, updateWhere, hv]
  · intro h
    have hm := map_update_noop s.rows ((atoi idStr).getD 0)
      { user with id := (atoi idStr).getD 0 } h
    simp [updateUser, updateWhere, hv]
    simp only [beq_iff_eq] at hm
    rw [hm]

/-- Witness for C8: a valid payload with body id 7 written through path id
1 lands with id 1; on a store without id 1 the write is a no-op. -/
theorem update_forces_path_id_witness :
    (updateUser ⟨[⟨2, "Ann B", "ann@b.co", 20⟩], 3⟩ none "1"
        (some ⟨7, "John Doe", "johndoe@example.com", 30⟩)) =
      (Response.okUser { (⟨7, "John Doe", "johndoe@example.com", 30⟩ : User)
          with id := (atoi "1").getD 0 },
        ⟨[⟨2, "Ann B", "ann@b.co", 20⟩], 3⟩) :=
  (update_forces_path_id ⟨[⟨2, "Ann B", "ann@b.co", 20⟩], 3⟩ "1"
      ⟨7, "John Doe", "johndoe@example.com", 30⟩ (by decide)).2.2
    (by decide)

/-- C10: Get and Delete translate EVERY store-layer error (missing row or
injected connectivity failure alike) to 404 "User not found" and never
answer 500, while List, Create and Update surface a store failure as
500. -/
theorem store_error_status_mapping (s : Store) (m : String)
    (idStr pageStr limitStr name ageStr : String) (u : User) :
    getUser s (some m) idStr = Response.notFound "User not found" ∧
    (deleteUser s (some m) idStr).1 = Response.notFound "User not found" ∧
    (∀ fail, (getUser s fail idStr).status ≠ 500 ∧
      ((deleteUser s fail idStr).1).status ≠ 500) ∧
    getUsers s (some m) pageStr limitStr name ageStr =
      Response.serverError m ∧
    (validateStruct u = [] →
      (createUser s (some m) (some u)).1 = Response.serverError m ∧
      (updateUser s (some m) idStr (some u)).1 = Response.serverError m) := by
  refine ⟨rfl, rfl, ?_, rfl, ?_⟩
  · intro fail
    constructor
    · cases fail with
      | some m2 => simp [getUser, selectPK, Response.status]
      | none =>
        cases hf : s.rows.find? (fun r => r.id == (atoi idStr).getD 0) with
        | none => simp [getUser, selectPK, hf, Response.status]
        | some u2 => simp [getUser, selectPK, hf, Response.status]
    · cases fail with
      | some m2 => simp [deleteUser, deleteRowPK, Response.status]
      | none =>
        cases ha : s.rows.any (fun r => r.id == (atoi idStr).getD 0) with
        | false => simp [deleteUser, deleteRowPK, ha, Response.status]
        | true => simp [deleteUser, deleteRowPK, ha, Response.status]
  · intro hv
    constructor
    · simp [createUser, insertRow, hv]
    · simp [updateUser, updateWhere, hv]

/-- Witness for C10 with a concrete store, error message and payload. -/
theorem store_error_status_mapping_witness :
    (createUser ⟨[], 1⟩ (some "broken pipe") (some ⟨0, "John Doe",
        "johndoe@example.com", 30⟩)).1 = Response.serverError "broken pipe" ∧
    (updateUser ⟨[], 1⟩ (some "broken pipe") "1" (some ⟨0, "John Doe",
        "johndoe@example.com", 30⟩)).1 = Response.serverError "broken pipe" :=
  (store_error_status_mapping ⟨[], 1⟩ "broken pipe" "1" "" "" "" ""
      ⟨0, "John Doe", "johndoe@example.com", 30⟩).2.2.2.2 (by decide)

/-- C5 counterexample: a parsable non-positive page or limit parameter is
NOT replaced by the defaults — `page=-1` stays -1 and `limit=0` stays 0
(only a parse failure triggers the default). -/
theorem page_limit_nonpositive_counterexample :
    ¬ (parsePage "-1" = 1 ∧ parseLimit "0" = 10) := by decide

/-- C5 amended: only an UNPARSABLE page or limit falls back to the defaults
page=1, limit=10; a parsable value — non-positive included — is used as-is.
The query then skips (page-1)*limit rows and returns at most limit rows
(offset and limit clamped at 0). -/
theorem page_limit_fallback_amended (pageStr limitStr : String) (s : Store)
    (name ageStr : String) :
    (atoi pageStr = none → parsePage pageStr = 1) ∧
    (atoi limitStr = none → parseLimit limitStr = 10) ∧
    (∀ v, atoi pageStr = some v → parsePage pageStr = v) ∧
    (∀ v, atoi limitStr = some v → parseLimit limitStr = v) ∧
    getUsers s none pageStr limitStr name ageStr =
      Response.okUsers (((applyFilters s.rows name ageStr).drop
        (((parsePage pageStr - 1) * parseLimit limitStr).toNat)).take
        (parseLimit limitStr).toNat) ∧
    (∀ us, getUsers s none pageStr limitStr name ageStr =
      Response.okUsers us → us.length ≤ (parseLimit limitStr).toNat) := by
  refine ⟨?_, ?_, ?_, ?_, rfl, ?_⟩
  · intro h
    simp [parsePage, h]
  · intro h
    simp [parseLimit, h]
  · intro v h
    simp [parsePage, h]
  · intro v h
    simp [parseLimit, h]
  · intro us hus
    have hus2 : us = ((applyFilters s.rows name ageStr).drop
        (((parsePage pageStr - 1) * parseLimit limitStr).toNat)).take
        (parseLimit limitStr).toNat := by
      exact (by simpa [getUsers, dbCall] using hus : _ = us).symm
    rw [hus2, List.length_take]
    exact min_le_left _ _

/-- Witness for C5 (amended) at concrete parameters: unparsable values
default, parsable values pass through. -/
theorem page_limit_fallback_amended_witness :
    parsePage "x" = 1 ∧ parseLimit "" = 10 ∧ parsePage "3" = 3 ∧
      parseLimit "5" = 5 :=
  ⟨(page_limit_fallback_amended "x" "" ⟨[], 1⟩ "" "").1 (by decide),
    (page_limit_fallback_amended "x" "" ⟨[], 1⟩ "" "").2.1 (by decide),
    (page_limit_fallback_amended "3" "5" ⟨[], 1⟩ "" "").2.2.1 3 (by decide),
    (page_limit_fallback_amended "3" "5" ⟨[], 1⟩ "" "").2.2.2.1 5 (by decide)⟩

/-- C6 counterexample: an age parameter that is present but unparsable DOES
constrain the result set — on a store whose only user has age 30, the list
with `age=abc` is empty (the failed parse leaves `age = 0` and the filter
`age = 0` is applied), while the list without an age parameter returns the
user. -/
theorem age_unparsable_filters_counterexample :
    getUsers ⟨[⟨1, "John", "j@e.com", 30⟩], 2⟩ none "" "" "" "abc" =
        Response.okUsers [] ∧
      getUsers ⟨[⟨1, "John", "j@e.com", 30⟩], 2⟩ none "" "" "" "" =
        Response.okUsers [⟨1, "John", "j@e.com", 30⟩] := by decide

/-- C6 amended: an absent (empty) age or name parameter imposes no
constraint and supplied values match by equality, but an age parameter that
is present and unparsable filters by age = 0 (the zero value `Atoi` returns
with its error). -/
theorem list_filters_amended (rows : List User) (name ageStr : String) :
    applyFilters rows "" "" = rows ∧
    (name ≠ "" → applyFilters rows name "" =
      rows.filter (fun r => r.name == name)) ∧
    (ageStr ≠ "" → atoi ageStr = none →
      applyFilters rows name ageStr =
        (if name ≠ "" then rows.filter (fun r => r.name == name)
          else rows).filter (fun r => r.age == 0)) ∧
    (∀ v, ageStr ≠ "" → atoi ageStr = some v →
      applyFilters rows name ageStr =
        (if name ≠ "" then rows.filter (fun r => r.name == name)
          else rows).filter (fun r => r.age == v)) := by
  refine ⟨?_, ?_, ?_, ?_⟩
  · simp [applyFilters]
  · intro h
    simp [applyFilters, h]
  · intro h hn
    by_cases hname : name = "" <;> simp [applyFilters, h, hn, hname]
  · intro v h hv
    by_cases hname : name = "" <;> simp [applyFilters, h, hv, hname]

/-- Witness for C6 (amended): the unparsable value `abc` yields the
`age = 0` filter, which empties a store whose only user has age 30. -/
theorem list_filters_amended_witness :
    applyFilters [⟨1, "John", "j@e.com", 30⟩] "" "abc" = [] := by
  have h := (list_filters_amended [⟨1, "John", "j@e.com", 30⟩] ""
    "abc").2.2.1 (by decide) (by decide)
  rw [h]
  decide

end GoLaba
